import Mathlib

/-!
# Room synchroniser of `retro`

A shallow embedding of `src/room/handlers.go` (the operation handlers registered on the
socket server) and of `Room.IsUser` from `src/retro.go`.

* The packages `database` and `sock` and the standard `encoding/json` are not part of the
  sources; the handlers reach them only through method calls.  They are therefore parameters
  of the embedding (`Env`): the Store methods, the `json.Unmarshal` instances at the argument
  records of the handlers, the identifier generator `strId` and the clock `time.Now`.
* A Go result pair `(value, err)` is the record `Res` with `err = none` for a nil error.
* A handler is a function on a `World`: the Store state and the trace of everything the
  handler did to the outside, in order: Store calls, `conn.Send` and `conn.Broadcast`.
  `log.Println` has no effect on the Store, the connection or the wire and is left out.
-/

namespace retro

/-- A non-nil Go `error`. -/
abbrev Error := String

/-- The `[]byte` payload handed to a handler. -/
abbrev Bytes := List Nat

/-! ## package `database`: the record types, with the fields the handlers use -/

namespace database

/-- Modelled from the spec: the record `database.User` (its declaration is in package
`database`): the unique username and the token issued at login. -/
structure User where
  Username : String
  Token : String
deriving DecidableEq, Repr, Inhabited

/-- Modelled from the spec: the record `database.Retro`, a board: id, name, stage label
(empty when unset) and creation time, with the field names `createRetro` writes. -/
structure Retro where
  Id : String
  Name : String
  Stage : String
  CreatedAt : Nat
deriving DecidableEq, Repr, Inhabited

/-- Modelled from the spec: the record `database.Column`: id, owning retro id, name and
integer order, with the field names `createRetro` writes. -/
structure Column where
  Id : String
  Retro : String
  Name : String
  Order : Int
deriving DecidableEq, Repr, Inhabited

/-- Modelled from the spec: the record `database.Card`: id, owning column id, the viewer's
own vote count, the revealed flag and the total vote count, with the field names `add` and
`joinRetro` use. -/
structure Card where
  Id : String
  Column : String
  Votes : Int
  Revealed : Bool
  TotalVotes : Int
deriving DecidableEq, Repr, Inhabited

/-- Modelled from the spec: the record `database.Content`: id, owning card id, text and
author, with the field names `add` writes. -/
structure Content where
  Id : String
  Card : String
  Text : String
  Author : String
deriving DecidableEq, Repr, Inhabited

end database

open database

/-- The methods of `*database.Database` called by the handlers, over an abstract Store state.
Reads are queries on the state and return the Go pair `(value, err)`; writes return `err`
and the next state. -/
structure Database (σ : Type) where
  GetUser : σ → String → User × Option Error
  GetUsers : σ → List User × Option Error
  GetRetro : σ → String → Retro × Option Error
  GetRetros : σ → String → List Retro × Option Error
  GetColumns : σ → String → List Column × Option Error
  GetCards : σ → String → String → List Card × Option Error
  GetContents : σ → String → List Content × Option Error
  GetParticipants : σ → String → List String × Option Error
  EnsureUser : σ → User → Option Error × σ
  AddRetro : σ → Retro → Option Error × σ
  SetStage : σ → String → String → Option Error × σ
  AddColumn : σ → Column → Option Error × σ
  AddCard : σ → Card → Option Error × σ
  MoveCard : σ → String → String → Option Error × σ
  RevealCard : σ → String → Option Error × σ
  DeleteCard : σ → String → Option Error × σ
  GroupCards : σ → String → String → Option Error × σ
  AddContent : σ → Content → Option Error × σ
  UpdateContent : σ → String → String → Option Error × σ
  Vote : σ → String → String → Option Error × σ
  Unvote : σ → String → String → Option Error × σ
  AddParticipant : σ → String → String → Option Error × σ

/-- One call of a Store method, with its arguments. -/
inductive StoreCall where
  | GetUser (username : String)
  | GetUsers
  | GetRetro (id : String)
  | GetRetros (username : String)
  | GetColumns (retroId : String)
  | GetCards (username columnId : String)
  | GetContents (cardId : String)
  | GetParticipants (retroId : String)
  | EnsureUser (user : User)
  | AddRetro (retro : Retro)
  | SetStage (retroId stage : String)
  | AddColumn (column : Column)
  | AddCard (card : Card)
  | MoveCard (id column : String)
  | RevealCard (id : String)
  | DeleteCard (id : String)
  | GroupCards (cardFrom cardTo : String)
  | AddContent (content : Content)
  | UpdateContent (id text : String)
  | Vote (username cardId : String)
  | Unvote (username cardId : String)
  | AddParticipant (retroId username : String)
deriving DecidableEq, Repr

/-- The calls that can change the Store. -/
def StoreCall.isWrite : StoreCall → Bool
  | .GetUser _ | .GetUsers | .GetRetro _ | .GetRetros _ | .GetColumns _ | .GetCards _ _
  | .GetContents _ | .GetParticipants _ => false
  | _ => true

/-! ## package `sock`: connections and the authentication message -/

namespace sock

/-- Modelled from the spec: the connection `sock.Conn` (its declaration is in package
`sock`): the bound username and the current room, the two fields the handlers use. -/
structure Conn where
  Name : String
  RetroId : String
deriving DecidableEq, Repr, Inhabited

/-- Modelled from the spec: the authentication message `sock.MsgAuth`: username and
token. -/
structure MsgAuth where
  Username : String
  Token : String
deriving DecidableEq, Repr, Inhabited

end sock

open sock

/-! ## the event bodies of `handlers.go` -/

structure helloData where
  HasGitHub : Bool
  HasOffice365 : Bool
deriving DecidableEq, Repr, Inhabited

structure stageData where
  Stage : String
deriving DecidableEq, Repr, Inhabited

structure columnData where
  ColumnId : String
  ColumnName : String
  ColumnOrder : Int
deriving DecidableEq, Repr, Inhabited

structure cardData where
  ColumnId : String
  CardId : String
  Revealed : Bool
  Votes : Int
  TotalVotes : Int
deriving DecidableEq, Repr, Inhabited

structure contentData where
  ColumnId : String
  CardId : String
  ContentId : String
  CardText : String
deriving DecidableEq, Repr, Inhabited

structure moveData where
  ColumnFrom : String
  ColumnTo : String
  CardId : String
deriving DecidableEq, Repr, Inhabited

structure revealData where
  ColumnId : String
  CardId : String
deriving DecidableEq, Repr, Inhabited

structure groupData where
  ColumnFrom : String
  CardFrom : String
  ColumnTo : String
  CardTo : String
deriving DecidableEq, Repr, Inhabited

structure voteData where
  UserId : String
  ColumnId : String
  CardId : String
deriving DecidableEq, Repr, Inhabited

structure deleteData where
  ColumnId : String
  CardId : String
deriving DecidableEq, Repr, Inhabited

structure userData where
  Username : String
deriving DecidableEq, Repr, Inhabited

structure retroData where
  Id : String
  Name : String
  CreatedAt : Nat
  Participants : List String
deriving DecidableEq, Repr, Inhabited

/-- The anonymous argument record of the `joinRetro` handler. -/
structure joinRetroArgs where
  RetroId : String
deriving DecidableEq, Repr, Inhabited

/-- The anonymous argument record of the `add` handler. -/
structure addArgs where
  ColumnId : String
  CardText : String
deriving DecidableEq, Repr, Inhabited

/-- The anonymous argument record of the `createRetro` handler. -/
structure createRetroArgs where
  Name : String
  Users : List String
deriving DecidableEq, Repr, Inhabited

/-- The `interface{}` body passed to `Send` and `Broadcast`. -/
inductive Body where
  | hello (d : helloData)
  | stage (d : stageData)
  | column (d : columnData)
  | card (d : cardData)
  | content (d : contentData)
  | move (d : moveData)
  | reveal (d : revealData)
  | group (d : groupData)
  | vote (d : voteData)
  | delete (d : deleteData)
  | user (d : userData)
  | retro (d : retroData)
deriving DecidableEq, Repr

/-- What a handler does to the outside.  `send conn a op body` is `conn.Send(a, op, body)`
and `broadcast conn a op body` is `conn.Broadcast(a, op, body)`, with the connection as it
is at the call. -/
inductive Effect where
  | call (c : StoreCall)
  | send (conn : Conn) (excludedAuthor op : String) (body : Body)
  | broadcast (conn : Conn) (excludedAuthor op : String) (body : Body)
deriving DecidableEq, Repr

def Effect.isCall : Effect → Bool
  | .call _ => true
  | _ => false

def Effect.isSend : Effect → Bool
  | .send _ _ _ _ => true
  | _ => false

def Effect.isBroadcast : Effect → Bool
  | .broadcast _ _ _ _ => true
  | _ => false

/-- The excluded author of an event. -/
def Effect.excludedAuthor : Effect → Option String
  | .call _ => none
  | .send _ a _ _ => some a
  | .broadcast _ a _ _ => some a

/-- The Store calls of a trace, in order. -/
def storeCalls (t : List Effect) : List StoreCall :=
  t.filterMap fun e => match e with
    | .call c => some c
    | _ => none

/-- The events (`Send` and `Broadcast`) of a trace, in order. -/
def events (t : List Effect) : List Effect :=
  t.filter fun e => !e.isCall

/-- The `json.Unmarshal(data, &args)` instances of the handlers, one per argument record;
`none` is a non-nil error. -/
structure Json where
  joinRetroArgs : Bytes → Option joinRetroArgs
  addArgs : Bytes → Option addArgs
  contentData : Bytes → Option contentData
  moveData : Bytes → Option moveData
  stageData : Bytes → Option stageData
  revealData : Bytes → Option revealData
  groupData : Bytes → Option groupData
  voteData : Bytes → Option voteData
  deleteData : Bytes → Option deleteData
  createRetroArgs : Bytes → Option createRetroArgs

/-- What the handlers take from outside `handlers.go`: `r.db`, `json.Unmarshal`, the
identifier `strId()` returns at its k-th call within one handler invocation, and the value of
`time.Now()`. -/
structure Env (σ : Type) where
  db : Database σ
  json : Json
  strId : Nat → String
  now : Nat

/-- The Store state and the trace so far. -/
structure World (σ : Type) where
  db : σ
  trace : List Effect

/-- A Go result pair `(val, err)` together with the world after the call. -/
structure Res (α σ : Type) where
  val : α
  err : Option Error
  w : World σ

variable {σ : Type}

def World.emit (w : World σ) (e : Effect) : World σ :=
  { w with trace := w.trace ++ [e] }

/-- A Store query: the state is kept, the call is recorded. -/
def World.query {α : Type} (w : World σ) (c : StoreCall) (r : α × Option Error) : Res α σ :=
  { val := r.1, err := r.2, w := w.emit (.call c) }

/-- A Store update: the state is replaced, the call is recorded. -/
def World.update (w : World σ) (c : StoreCall) (r : Option Error × σ) : Res Unit σ :=
  { val := (), err := r.1, w := { db := r.2, trace := w.trace ++ [.call c] } }

namespace sock.Conn

/-- The method `conn.Send(excludedAuthor, op, body)`. -/
def Send (conn : Conn) (excludedAuthor op : String) (body : Body) (w : World σ) : World σ :=
  w.emit (.send conn excludedAuthor op body)

/-- The method `conn.Broadcast(excludedAuthor, op, body)`. -/
def Broadcast (conn : Conn) (excludedAuthor op : String) (body : Body) (w : World σ) :
    World σ :=
  w.emit (.broadcast conn excludedAuthor op body)

end sock.Conn

/-! ## `r.db.X(...)`: the Store methods run on a world -/

namespace Env

variable (env : Env σ)

def GetUser (username : String) (w : World σ) : Res User σ :=
  w.query (.GetUser username) (env.db.GetUser w.db username)

def GetUsers (w : World σ) : Res (List User) σ :=
  w.query .GetUsers (env.db.GetUsers w.db)

def GetRetro (id : String) (w : World σ) : Res Retro σ :=
  w.query (.GetRetro id) (env.db.GetRetro w.db id)

def GetRetros (username : String) (w : World σ) : Res (List Retro) σ :=
  w.query (.GetRetros username) (env.db.GetRetros w.db username)

def GetColumns (retroId : String) (w : World σ) : Res (List Column) σ :=
  w.query (.GetColumns retroId) (env.db.GetColumns w.db retroId)

def GetCards (username columnId : String) (w : World σ) : Res (List Card) σ :=
  w.query (.GetCards username columnId) (env.db.GetCards w.db username columnId)

def GetContents (cardId : String) (w : World σ) : Res (List Content) σ :=
  w.query (.GetContents cardId) (env.db.GetContents w.db cardId)

def GetParticipants (retroId : String) (w : World σ) : Res (List String) σ :=
  w.query (.GetParticipants retroId) (env.db.GetParticipants w.db retroId)

def AddRetro (retro : Retro) (w : World σ) : Res Unit σ :=
  w.update (.AddRetro retro) (env.db.AddRetro w.db retro)

def SetStage (retroId stage : String) (w : World σ) : Res Unit σ :=
  w.update (.SetStage retroId stage) (env.db.SetStage w.db retroId stage)

def AddColumn (column : Column) (w : World σ) : Res Unit σ :=
  w.update (.AddColumn column) (env.db.AddColumn w.db column)

def AddCard (card : Card) (w : World σ) : Res Unit σ :=
  w.update (.AddCard card) (env.db.AddCard w.db card)

def MoveCard (id column : String) (w : World σ) : Res Unit σ :=
  w.update (.MoveCard id column) (env.db.MoveCard w.db id column)

def RevealCard (id : String) (w : World σ) : Res Unit σ :=
  w.update (.RevealCard id) (env.db.RevealCard w.db id)

def DeleteCard (id : String) (w : World σ) : Res Unit σ :=
  w.update (.DeleteCard id) (env.db.DeleteCard w.db id)

def GroupCards (cardFrom cardTo : String) (w : World σ) : Res Unit σ :=
  w.update (.GroupCards cardFrom cardTo) (env.db.GroupCards w.db cardFrom cardTo)

def AddContent (content : Content) (w : World σ) : Res Unit σ :=
  w.update (.AddContent content) (env.db.AddContent w.db content)

def UpdateContent (id text : String) (w : World σ) : Res Unit σ :=
  w.update (.UpdateContent id text) (env.db.UpdateContent w.db id text)

def Vote (username cardId : String) (w : World σ) : Res Unit σ :=
  w.update (.Vote username cardId) (env.db.Vote w.db username cardId)

def Unvote (username cardId : String) (w : World σ) : Res Unit σ :=
  w.update (.Unvote username cardId) (env.db.Unvote w.db username cardId)

def AddParticipant (retroId username : String) (w : World σ) : Res Unit σ :=
  w.update (.AddParticipant retroId username) (env.db.AddParticipant w.db retroId username)

end Env

/-! ## `retro.go`: the identity gate -/

/-- The method `Room.IsUser`: `found, err := r.db.GetUser(user)`, then
`err == nil && found.Token == token`.  Returns the verdict and the world after the call. -/
def IsUser (env : Env σ) (user token : String) (w : World σ) : Bool × World σ :=
  let r := env.GetUser user w
  (r.err == none && r.val.Token == token, r.w)

/-! ## `room/handlers.go`: what `registerHandlers` installs -/

/-- A handler `func(conn *sock.Conn, data []byte)`: the connection after the call (a handler
may assign `conn.RetroId`) and the world after the call. -/
abbrev Handler (σ : Type) := Conn → Bytes → World σ → Conn × World σ

/-- The predicate installed with `mux.Auth`. -/
def Auth (env : Env σ) (auth : MsgAuth) (w : World σ) : Bool × World σ :=
  IsUser env auth.Username auth.Token w

/-- The hook installed with `mux.OnConnect`. -/
def OnConnect (conn : Conn) (w : World σ) : Conn × World σ :=
  (conn, conn.Send "" "hello" (.hello { HasGitHub := true, HasOffice365 := false }) w)

/-- The innermost loop of `joinRetro`: `for _, content := range contents`. -/
def joinRetroContents (conn : Conn) (column : Column) (card : Card)
    (contents : List Content) (w : World σ) : World σ :=
  contents.foldl
    (fun w content =>
      conn.Send content.Author "content"
        (.content { ColumnId := column.Id, CardId := card.Id, ContentId := content.Id,
                    CardText := content.Text }) w)
    w

/-- The middle loop of `joinRetro`: `for _, card := range cards`. -/
def joinRetroCards (env : Env σ) (conn : Conn) (column : Column) (cards : List Card)
    (w : World σ) : World σ :=
  cards.foldl
    (fun w card =>
      let w := conn.Send "" "card"
        (.card { ColumnId := column.Id, CardId := card.Id, Revealed := card.Revealed,
                 Votes := card.Votes, TotalVotes := card.TotalVotes }) w
      -- contents, _ := r.db.GetContents(card.Id)
      let contents := env.GetContents card.Id w
      joinRetroContents conn column card contents.val contents.w)
    w

/-- The outer loop of `joinRetro`: `for _, column := range columns`. -/
def joinRetroColumns (env : Env σ) (conn : Conn) (columns : List Column) (w : World σ) :
    World σ :=
  columns.foldl
    (fun w column =>
      let w := conn.Send "" "column"
        (.column { ColumnId := column.Id, ColumnName := column.Name,
                   ColumnOrder := column.Order }) w
      -- cards, err := r.db.GetCards(conn.Name, column.Id); the error is only logged
      let cards := env.GetCards conn.Name column.Id w
      joinRetroCards env conn column cards.val cards.w)
    w

/-- The handler of `joinRetro`. -/
def joinRetro (env : Env σ) : Handler σ := fun conn data w =>
  match env.json.joinRetroArgs data with
  | none => (conn, w)
  | some args =>
    let retro := env.GetRetro args.RetroId w
    match retro.err with
    | some _ => (conn, retro.w)
    | none =>
      let conn := { conn with RetroId := args.RetroId }
      let w := if retro.val.Stage ≠ "" then
          conn.Send "" "stage" (.stage { Stage := retro.val.Stage }) retro.w
        else retro.w
      let columns := env.GetColumns args.RetroId w
      match columns.err with
      | some _ => (conn, columns.w)
      | none => (conn, joinRetroColumns env conn columns.val columns.w)

/-- The second loop of `menu`: `for _, retro := range retros`, with its `continue`. -/
def menuRetros (env : Env σ) (conn : Conn) (retros : List Retro) (w : World σ) : World σ :=
  retros.foldl
    (fun w retro =>
      let participants := env.GetParticipants retro.Id w
      match participants.err with
      | some _ => participants.w
      | none =>
        conn.Send "" "retro"
          (.retro { Id := retro.Id, Name := retro.Name, CreatedAt := retro.CreatedAt,
                    Participants := participants.val }) participants.w)
    w

/-- The handler of `menu`. -/
def menu (env : Env σ) : Handler σ := fun conn _data w =>
  let users := env.GetUsers w
  match users.err with
  | some _ => (conn, users.w)
  | none =>
    let w := users.val.foldl
      (fun w user => conn.Send "" "user" (.user { Username := user.Username }) w) users.w
    let retros := env.GetRetros conn.Name w
    match retros.err with
    | some _ => (conn, retros.w)
    | none => (conn, menuRetros env conn retros.val retros.w)

/-- The handler of `add`. -/
def add (env : Env σ) : Handler σ := fun conn data w =>
  match env.json.addArgs data with
  | none => (conn, w)
  | some args =>
    -- database.Card{Id, Column, Revealed}: the vote counts are the zero value
    let card : Card :=
      { Id := env.strId 0, Column := args.ColumnId, Votes := 0, Revealed := false,
        TotalVotes := 0 }
    let r := env.AddCard card w
    match r.err with
    | some _ => (conn, r.w)
    | none =>
      let content : Content :=
        { Id := env.strId 1, Card := card.Id, Text := args.CardText, Author := conn.Name }
      let r := env.AddContent content r.w
      match r.err with
      | some _ => (conn, r.w)
      | none =>
        let w := conn.Broadcast "" "card"
          (.card { ColumnId := args.ColumnId, CardId := card.Id, Revealed := card.Revealed,
                   Votes := card.Votes, TotalVotes := card.TotalVotes }) r.w
        let w := conn.Broadcast content.Author "content"
          (.content { ColumnId := args.ColumnId, CardId := content.Card,
                      ContentId := content.Id, CardText := content.Text }) w
        (conn, w)

/-- The handler of `edit`. -/
def edit (env : Env σ) : Handler σ := fun conn data w =>
  match env.json.contentData data with
  | none => (conn, w)
  | some content =>
    let r := env.UpdateContent content.ContentId content.CardText w
    match r.err with
    | some _ => (conn, r.w)
    | none => (conn, conn.Broadcast conn.Name "content" (.content content) r.w)

/-- The handler of `move`; the result of `MoveCard` is discarded. -/
def move (env : Env σ) : Handler σ := fun conn data w =>
  match env.json.moveData data with
  | none => (conn, w)
  | some args =>
    let r := env.MoveCard args.CardId args.ColumnTo w
    (conn, conn.Broadcast conn.Name "move" (.move args) r.w)

/-- The handler of `stage`; the result of `SetStage` is discarded. -/
def stage (env : Env σ) : Handler σ := fun conn data w =>
  match env.json.stageData data with
  | none => (conn, w)
  | some args =>
    let r := env.SetStage conn.RetroId args.Stage w
    (conn, conn.Broadcast conn.Name "stage" (.stage args) r.w)

/-- The handler of `reveal`; the result of `RevealCard` is discarded. -/
def reveal (env : Env σ) : Handler σ := fun conn data w =>
  match env.json.revealData data with
  | none => (conn, w)
  | some args =>
    let r := env.RevealCard args.CardId w
    (conn, conn.Broadcast conn.Name "reveal" (.reveal args) r.w)

/-- The handler of `group`; an error of `GroupCards` is logged and the handler goes on. -/
def group (env : Env σ) : Handler σ := fun conn data w =>
  match env.json.groupData data with
  | none => (conn, w)
  | some args =>
    let r := env.GroupCards args.CardFrom args.CardTo w
    (conn, conn.Broadcast conn.Name "group" (.group args) r.w)

/-- The handler of `vote`: `args.UserId = conn.Name` before the Store call. -/
def vote (env : Env σ) : Handler σ := fun conn data w =>
  match env.json.voteData data with
  | none => (conn, w)
  | some args =>
    let args := { args with UserId := conn.Name }
    let r := env.Vote conn.Name args.CardId w
    (conn, conn.Broadcast conn.Name "vote" (.vote args) r.w)

/-- The handler of `unvote`: `args.UserId = conn.Name` before the Store call. -/
def unvote (env : Env σ) : Handler σ := fun conn data w =>
  match env.json.voteData data with
  | none => (conn, w)
  | some args =>
    let args := { args with UserId := conn.Name }
    let r := env.Unvote conn.Name args.CardId w
    (conn, conn.Broadcast conn.Name "unvote" (.vote args) r.w)

/-- The handler of `delete`; the result of `DeleteCard` is discarded. -/
def delete (env : Env σ) : Handler σ := fun conn data w =>
  match env.json.deleteData data with
  | none => (conn, w)
  | some args =>
    let r := env.DeleteCard args.CardId w
    (conn, conn.Broadcast conn.Name "delete" (.delete args) r.w)

/-- The handler of `createRetro`; every Store result is discarded. -/
def createRetro (env : Env σ) : Handler σ := fun conn data w =>
  match env.json.createRetroArgs data with
  | none => (conn, w)
  | some args =>
    let retroId := env.strId 0
    let createdAt := env.now
    let w := (env.AddRetro
      { Id := retroId, Name := args.Name, Stage := "", CreatedAt := createdAt } w).w
    let w := (env.AddColumn
      { Id := env.strId 1, Retro := retroId, Name := "Start", Order := 0 } w).w
    let w := (env.AddColumn
      { Id := env.strId 2, Retro := retroId, Name := "More", Order := 1 } w).w
    let w := (env.AddColumn
      { Id := env.strId 3, Retro := retroId, Name := "Keep", Order := 2 } w).w
    let w := (env.AddColumn
      { Id := env.strId 4, Retro := retroId, Name := "Less", Order := 3 } w).w
    let w := (env.AddColumn
      { Id := env.strId 5, Retro := retroId, Name := "Stop", Order := 4 } w).w
    let allParticipants := args.Users ++ [conn.Name]
    let w := allParticipants.foldl (fun w user => (env.AddParticipant retroId user w).w) w
    (conn, conn.Send conn.Name "retro"
      (.retro { Id := retroId, Name := args.Name, CreatedAt := createdAt,
                Participants := allParticipants }) w)

/-- The table built by the `mux.Handle` calls of `registerHandlers`, in the order of the
calls: operation name and handler. -/
def registerHandlers (env : Env σ) : List (String × Handler σ) :=
  [("joinRetro", joinRetro env), ("menu", menu env), ("add", add env), ("edit", edit env),
   ("move", move env), ("stage", stage env), ("reveal", reveal env), ("group", group env),
   ("vote", vote env), ("unvote", unvote env), ("delete", delete env),
   ("createRetro", createRetro env)]

/-- The handlers of the mutations that exclude their author. -/
def mutationHandlers (env : Env σ) : List (Handler σ) :=
  [edit env, move env, stage env, reveal env, group env, vote env, unvote env, delete env]

/-- A world with an empty trace: the start of one handler invocation. -/
def World.start (db : σ) : World σ := { db := db, trace := [] }

/-- A handler invocation taken alone: the connection after it and its own trace. -/
def run (h : Handler σ) (conn : Conn) (data : Bytes) (db : σ) : Conn × World σ :=
  h conn data (World.start db)

/-! ## The replay of `joinRetro` as the specification words it -/

/-- The `card` event of one returned card, then one `content` event per returned content. -/
def replayCard (env : Env σ) (db : σ) (conn : Conn) (column : Column) (card : Card) :
    List Effect :=
  Effect.send conn "" "card"
      (.card { ColumnId := column.Id, CardId := card.Id, Revealed := card.Revealed,
               Votes := card.Votes, TotalVotes := card.TotalVotes })
    :: (env.db.GetContents db card.Id).1.map fun content =>
        Effect.send conn content.Author "content"
          (.content { ColumnId := column.Id, CardId := card.Id, ContentId := content.Id,
                      CardText := content.Text })

/-- The `column` event of one column, then the replay of each card `GetCards` returns for
the viewer. -/
def replayColumn (env : Env σ) (db : σ) (conn : Conn) (column : Column) : List Effect :=
  Effect.send conn "" "column"
      (.column { ColumnId := column.Id, ColumnName := column.Name,
                 ColumnOrder := column.Order })
    :: (env.db.GetCards db conn.Name column.Id).1.flatMap (replayCard env db conn column)

/-- The whole replay: the `stage` event if the stage is set, then the columns in the order
`GetColumns` returns them. -/
def replay (env : Env σ) (db : σ) (conn : Conn) (retroId : String) : List Effect :=
  (if (env.db.GetRetro db retroId).1.Stage = "" then []
   else [Effect.send conn "" "stage" (.stage { Stage := (env.db.GetRetro db retroId).1.Stage })])
    ++ (env.db.GetColumns db retroId).1.flatMap (replayColumn env db conn)

/-- The body of a `card` event. -/
def cardOf : Effect → Option cardData
  | .send _ _ op (.card d) => if op = "card" then some d else none
  | .broadcast _ _ op (.card d) => if op = "card" then some d else none
  | _ => none

/-- The body of a `content` event. -/
def contentOf : Effect → Option contentData
  | .send _ _ op (.content d) => if op = "content" then some d else none
  | .broadcast _ _ op (.content d) => if op = "content" then some d else none
  | _ => none

/-! ## Example Stores and decoders, used to instantiate the theorems -/

namespace Example

/-- An in-memory Store state. -/
structure Mem where
  users : List User
  retros : List Retro
  columns : List Column
  cards : List Card
  contents : List Content
  participants : List (String × String)
  votes : List (String × String)
deriving DecidableEq, Repr

/-- A Store over `Mem`: lookups fail on a missing key, updates always succeed. -/
def memDb : Database Mem where
  GetUser s u := match s.users.find? (fun x => x.Username == u) with
    | some x => (x, none)
    | none => (default, some "no such user")
  GetUsers s := (s.users, none)
  GetRetro s id := match s.retros.find? (fun x => x.Id == id) with
    | some x => (x, none)
    | none => (default, some "no such retro")
  GetRetros s u :=
    (s.retros.filter (fun r => s.participants.contains (r.Id, u)), none)
  GetColumns s id := (s.columns.filter (fun c => c.Retro == id), none)
  GetCards s u col :=
    ((s.cards.filter (fun c => c.Column == col)).map fun c =>
      { c with Votes := (s.votes.filter (fun v => v == (u, c.Id))).length
               TotalVotes := (s.votes.filter (fun v => v.2 == c.Id)).length }, none)
  GetContents s card := (s.contents.filter (fun c => c.Card == card), none)
  GetParticipants s id := ((s.participants.filter (fun p => p.1 == id)).map Prod.snd, none)
  EnsureUser s u := (none, { s with users := s.users ++ [u] })
  AddRetro s r := (none, { s with retros := s.retros ++ [r] })
  SetStage s id st :=
    (none, { s with retros := s.retros.map fun r => if r.Id == id then { r with Stage := st } else r })
  AddColumn s c := (none, { s with columns := s.columns ++ [c] })
  AddCard s c := (none, { s with cards := s.cards ++ [c] })
  MoveCard s id col :=
    (none, { s with cards := s.cards.map fun c => if c.Id == id then { c with Column := col } else c })
  RevealCard s id :=
    (none, { s with cards := s.cards.map fun c => if c.Id == id then { c with Revealed := true } else c })
  DeleteCard s id := (none, { s with cards := s.cards.filter fun c => c.Id != id })
  GroupCards s a b :=
    (none, { s with
      cards := s.cards.filter fun c => c.Id != a
      contents := s.contents.map fun c => if c.Card == a then { c with Card := b } else c })
  AddContent s c := (none, { s with contents := s.contents ++ [c] })
  UpdateContent s id t :=
    (none, { s with contents := s.contents.map fun c => if c.Id == id then { c with Text := t } else c })
  Vote s u c := (none, { s with votes := s.votes ++ [(u, c)] })
  Unvote s u c := (none, { s with votes := s.votes.erase (u, c) })
  AddParticipant s id u := (none, { s with participants := s.participants ++ [(id, u)] })

/-- A Store every call of which returns an error. -/
def failDb : Database Unit where
  GetUser _ _ := (default, some "store down")
  GetUsers _ := ([], some "store down")
  GetRetro _ _ := (default, some "store down")
  GetRetros _ _ := ([], some "store down")
  GetColumns _ _ := ([], some "store down")
  GetCards _ _ _ := ([], some "store down")
  GetContents _ _ := ([], some "store down")
  GetParticipants _ _ := ([], some "store down")
  EnsureUser _ _ := (some "store down", ())
  AddRetro _ _ := (some "store down", ())
  SetStage _ _ _ := (some "store down", ())
  AddColumn _ _ := (some "store down", ())
  AddCard _ _ := (some "store down", ())
  MoveCard _ _ _ := (some "store down", ())
  RevealCard _ _ := (some "store down", ())
  DeleteCard _ _ := (some "store down", ())
  GroupCards _ _ _ := (some "store down", ())
  AddContent _ _ := (some "store down", ())
  UpdateContent _ _ _ := (some "store down", ())
  Vote _ _ _ := (some "store down", ())
  Unvote _ _ _ := (some "store down", ())
  AddParticipant _ _ _ := (some "store down", ())

/-- A Store in which adding a card works and adding a content fails. -/
def failContentDb : Database Mem :=
  { memDb with AddContent := fun s _ => (some "store down", s) }

/-- A stub decoder: the empty payload is an error, any other payload decodes to the given
records. -/
def stubJson (j : joinRetroArgs) (a : addArgs) (c : contentData) (m : moveData)
    (s : stageData) (r : revealData) (g : groupData) (v : voteData) (d : deleteData)
    (cr : createRetroArgs) : Json where
  joinRetroArgs data := if data = [] then none else some j
  addArgs data := if data = [] then none else some a
  contentData data := if data = [] then none else some c
  moveData data := if data = [] then none else some m
  stageData data := if data = [] then none else some s
  revealData data := if data = [] then none else some r
  groupData data := if data = [] then none else some g
  voteData data := if data = [] then none else some v
  deleteData data := if data = [] then none else some d
  createRetroArgs data := if data = [] then none else some cr

/-- The decoder of the examples.  The `vote` payload carries a `userId` of the client's
own choosing. -/
def json : Json :=
  stubJson { RetroId := "r1" } { ColumnId := "c1", CardText := "ship it" }
    { ColumnId := "c1", CardId := "k1", ContentId := "t1", CardText := "ship it now" }
    { ColumnFrom := "c1", ColumnTo := "c2", CardId := "k1" } { Stage := "vote" }
    { ColumnId := "c1", CardId := "k1" }
    { ColumnFrom := "c1", CardFrom := "k1", ColumnTo := "c2", CardTo := "k2" }
    { UserId := "mallory", ColumnId := "c1", CardId := "k1" }
    { ColumnId := "c1", CardId := "k1" } { Name := "Sprint 1", Users := ["bob"] }

/-- Identifiers `id0`, `id1`, ... -/
def strId (k : Nat) : String := "id" ++ toString k

/-- A board with one retro, two columns, two cards, three contents and two votes. -/
def mem : Mem where
  users := [{ Username := "alice", Token := "tok-a" }, { Username := "bob", Token := "tok-b" }]
  retros := [{ Id := "r1", Name := "Sprint 0", Stage := "think", CreatedAt := 5 }]
  columns := [{ Id := "c1", Retro := "r1", Name := "Start", Order := 0 },
              { Id := "c2", Retro := "r1", Name := "More", Order := 1 }]
  cards := [{ Id := "k1", Column := "c1", Votes := 0, Revealed := false, TotalVotes := 0 },
            { Id := "k2", Column := "c2", Votes := 0, Revealed := true, TotalVotes := 0 }]
  contents := [{ Id := "t1", Card := "k1", Text := "one", Author := "alice" },
               { Id := "t2", Card := "k2", Text := "two", Author := "bob" },
               { Id := "t3", Card := "k2", Text := "three", Author := "alice" }]
  participants := [("r1", "alice"), ("r1", "bob")]
  votes := [("alice", "k2"), ("bob", "k2")]

def env : Env Mem := { db := memDb, json := json, strId := strId, now := 42 }

def failEnv : Env Unit := { db := failDb, json := json, strId := strId, now := 42 }

def failContentEnv : Env Mem := { db := failContentDb, json := json, strId := strId, now := 42 }

def alice : Conn := { Name := "alice", RetroId := "r1" }

def aliceLobby : Conn := { Name := "alice", RetroId := "" }

end Example

end retro

/-! ## Theorems -/

namespace retro

open database sock

variable {σ : Type}

/-! ### Traces -/

@[simp] theorem World.emit_trace (w : World σ) (e : Effect) :
    (w.emit e).trace = w.trace ++ [e] := rfl

@[simp] theorem World.emit_db (w : World σ) (e : Effect) : (w.emit e).db = w.db := rfl

@[simp] theorem events_nil : events [] = [] := rfl

@[simp] theorem events_append (s t : List Effect) : events (s ++ t) = events s ++ events t := by
  simp [events]

@[simp] theorem events_call (c : StoreCall) (t : List Effect) :
    events (Effect.call c :: t) = events t := by
  simp [events, Effect.isCall]

@[simp] theorem events_send (conn : Conn) (a op : String) (b : Body) (t : List Effect) :
    events (Effect.send conn a op b :: t) = Effect.send conn a op b :: events t := by
  simp [events, Effect.isCall]

@[simp] theorem events_broadcast (conn : Conn) (a op : String) (b : Body) (t : List Effect) :
    events (Effect.broadcast conn a op b :: t) = Effect.broadcast conn a op b :: events t := by
  simp [events, Effect.isCall]

@[simp] theorem storeCalls_nil : storeCalls [] = [] := rfl

@[simp] theorem storeCalls_append (s t : List Effect) :
    storeCalls (s ++ t) = storeCalls s ++ storeCalls t := by
  simp [storeCalls]

@[simp] theorem storeCalls_call (c : StoreCall) (t : List Effect) :
    storeCalls (Effect.call c :: t) = c :: storeCalls t := by
  simp [storeCalls]

@[simp] theorem storeCalls_send (conn : Conn) (a op : String) (b : Body) (t : List Effect) :
    storeCalls (Effect.send conn a op b :: t) = storeCalls t := by
  simp [storeCalls]

@[simp] theorem storeCalls_broadcast (conn : Conn) (a op : String) (b : Body)
    (t : List Effect) : storeCalls (Effect.broadcast conn a op b :: t) = storeCalls t := by
  simp [storeCalls]

theorem events_map_send {α : Type} (l : List α) (conn : Conn) (a : α → String) (op : String)
    (b : α → Body) :
    events (l.map fun x => Effect.send conn (a x) op (b x))
      = l.map fun x => Effect.send conn (a x) op (b x) := by
  induction l with
  | nil => rfl
  | cons x xs ih => simp [ih]

/-! ### The identity gate -/

/-- C1.  `IsUser u t`, the predicate installed with `mux.Auth`, is true exactly when
`GetUser u` returns no error and the returned record holds the token `t`; its only Store
call is that one `GetUser`, which is not a write, and the Store state is untouched.  An
error from `GetUser` (an unknown username) and a token that differs both give false. -/
theorem IsUser_iff (env : Env σ) (u t : String) (w : World σ) :
    ((IsUser env u t w).1 = true
        ↔ (env.db.GetUser w.db u).2 = none ∧ (env.db.GetUser w.db u).1.Token = t)
    ∧ Auth env { Username := u, Token := t } w = IsUser env u t w
    ∧ (IsUser env u t w).2.db = w.db
    ∧ (IsUser env u t w).2.trace = w.trace ++ [Effect.call (StoreCall.GetUser u)]
    ∧ (StoreCall.GetUser u).isWrite = false
    ∧ ((env.db.GetUser w.db u).2 ≠ none → (IsUser env u t w).1 = false)
    ∧ ((env.db.GetUser w.db u).1.Token ≠ t → (IsUser env u t w).1 = false) := by
  have hv : (IsUser env u t w).1
      = ((env.db.GetUser w.db u).2 == none && (env.db.GetUser w.db u).1.Token == t) := rfl
  refine ⟨?_, rfl, rfl, rfl, rfl, ?_, ?_⟩
  · rw [hv]; simp
  · intro h; rw [hv]; simp [h]
  · intro h; rw [hv]; simp [h]

/-! ### The loops of `joinRetro` -/

theorem joinRetroContents_db (conn : Conn) (column : Column) (card : Card)
    (contents : List Content) (w : World σ) :
    (joinRetroContents conn column card contents w).db = w.db := by
  induction contents generalizing w with
  | nil => rfl
  | cons c cs ih =>
    simp only [joinRetroContents, List.foldl_cons] at ih ⊢
    rw [ih]; rfl

theorem joinRetroContents_trace (conn : Conn) (column : Column) (card : Card)
    (contents : List Content) (w : World σ) :
    (joinRetroContents conn column card contents w).trace
      = w.trace ++ contents.map fun content =>
          Effect.send conn content.Author "content"
            (.content { ColumnId := column.Id, CardId := card.Id, ContentId := content.Id,
                        CardText := content.Text }) := by
  induction contents generalizing w with
  | nil => simp [joinRetroContents]
  | cons c cs ih =>
    simp only [joinRetroContents, List.foldl_cons] at ih ⊢
    rw [ih]; simp [Conn.Send]

theorem joinRetroCards_db (env : Env σ) (conn : Conn) (column : Column) (cards : List Card)
    (w : World σ) : (joinRetroCards env conn column cards w).db = w.db := by
  induction cards generalizing w with
  | nil => rfl
  | cons c cs ih =>
    simp only [joinRetroCards, List.foldl_cons] at ih ⊢
    rw [ih, joinRetroContents_db]; rfl

theorem joinRetroCards_events (env : Env σ) (conn : Conn) (column : Column)
    (cards : List Card) (w : World σ) :
    events (joinRetroCards env conn column cards w).trace
      = events w.trace ++ cards.flatMap (replayCard env w.db conn column) := by
  induction cards generalizing w with
  | nil => simp [joinRetroCards]
  | cons c cs ih =>
    simp only [joinRetroCards, List.foldl_cons] at ih ⊢
    rw [ih, joinRetroContents_db, joinRetroContents_trace]
    simp only [events_append, events_map_send]
    simp [Env.GetContents, World.query, Conn.Send, replayCard]

theorem joinRetroColumns_db (env : Env σ) (conn : Conn) (columns : List Column)
    (w : World σ) : (joinRetroColumns env conn columns w).db = w.db := by
  induction columns generalizing w with
  | nil => rfl
  | cons c cs ih =>
    simp only [joinRetroColumns, List.foldl_cons] at ih ⊢
    rw [ih, joinRetroCards_db]; rfl

theorem joinRetroColumns_events (env : Env σ) (conn : Conn) (columns : List Column)
    (w : World σ) :
    events (joinRetroColumns env conn columns w).trace
      = events w.trace ++ columns.flatMap (replayColumn env w.db conn) := by
  induction columns generalizing w with
  | nil => simp [joinRetroColumns]
  | cons c cs ih =>
    simp only [joinRetroColumns, List.foldl_cons] at ih ⊢
    rw [ih, joinRetroCards_db, joinRetroCards_events]
    simp [Env.GetCards, World.query, Conn.Send, replayColumn, events_append]

/-! ### The replay -/

theorem replay_send (env : Env σ) (db : σ) (conn : Conn) (retroId : String) :
    ∀ e ∈ replay env db conn retroId, ∃ a op b, e = Effect.send conn a op b := by
  intro e he
  simp only [replay, replayColumn, replayCard, List.mem_append, List.mem_flatMap,
    List.mem_cons, List.mem_map] at he
  rcases he with he | ⟨col, -, he | ⟨card, -, he | ⟨content, -, he⟩⟩⟩
  · split at he
    · simp at he
    · simp only [List.mem_singleton] at he
      exact ⟨_, _, _, he⟩
  · exact ⟨_, _, _, he⟩
  · exact ⟨_, _, _, he⟩
  · exact ⟨_, _, _, he.symm⟩

theorem filterMap_flatMap_eq {α β γ : Type} (l : List α) (f : α → List β) (g : β → Option γ)
    (h : α → List γ) (hf : ∀ a ∈ l, (f a).filterMap g = h a) :
    (l.flatMap f).filterMap g = l.flatMap h := by
  induction l with
  | nil => rfl
  | cons a as ih =>
    simp only [List.flatMap_cons, List.filterMap_append]
    rw [hf a (List.mem_cons_self _ _), ih (fun b hb => hf b (List.mem_cons_of_mem _ hb))]

theorem filterMap_map_none {α β γ : Type} (l : List α) (f : α → β) (g : β → Option γ)
    (h : ∀ a, g (f a) = none) : (l.map f).filterMap g = [] := by
  induction l with
  | nil => rfl
  | cons a as ih => simp [h, ih]

theorem filterMap_map_some {α β γ : Type} (l : List α) (f : α → β) (g : β → Option γ)
    (k : α → γ) (h : ∀ a, g (f a) = some (k a)) : (l.map f).filterMap g = l.map k := by
  induction l with
  | nil => rfl
  | cons a as ih => simp [h, ih]

theorem flatMap_unit {α β : Type} (l : List α) (k : α → β) :
    (l.flatMap fun a => [k a]) = l.map k := by
  induction l with
  | nil => rfl
  | cons a as ih => simp [List.flatMap_cons, ih]

theorem replayCard_cards (env : Env σ) (db : σ) (conn : Conn) (column : Column)
    (card : Card) :
    (replayCard env db conn column card).filterMap cardOf
      = [{ ColumnId := column.Id, CardId := card.Id, Revealed := card.Revealed,
           Votes := card.Votes, TotalVotes := card.TotalVotes }] := by
  simp only [replayCard, List.filterMap_cons, cardOf, if_true]
  rw [filterMap_map_none]
  intro a; rfl

theorem replayCard_contents (env : Env σ) (db : σ) (conn : Conn) (column : Column)
    (card : Card) :
    (replayCard env db conn column card).filterMap contentOf
      = (env.db.GetContents db card.Id).1.map fun content =>
          { ColumnId := column.Id, CardId := card.Id, ContentId := content.Id,
            CardText := content.Text } := by
  simp only [replayCard, List.filterMap_cons, contentOf]
  apply filterMap_map_some
  intro a; simp [contentOf]

theorem replayColumn_cards (env : Env σ) (db : σ) (conn : Conn) (column : Column) :
    (replayColumn env db conn column).filterMap cardOf
      = (env.db.GetCards db conn.Name column.Id).1.map fun card =>
          { ColumnId := column.Id, CardId := card.Id, Revealed := card.Revealed,
            Votes := card.Votes, TotalVotes := card.TotalVotes } := by
  simp only [replayColumn, List.filterMap_cons, cardOf]
  rw [filterMap_flatMap_eq _ _ _ _ (fun card _ => replayCard_cards env db conn column card)]
  exact flatMap_unit _ _

theorem replayColumn_contents (env : Env σ) (db : σ) (conn : Conn) (column : Column) :
    (replayColumn env db conn column).filterMap contentOf
      = (env.db.GetCards db conn.Name column.Id).1.flatMap fun card =>
          (env.db.GetContents db card.Id).1.map fun content =>
            { ColumnId := column.Id, CardId := card.Id, ContentId := content.Id,
              CardText := content.Text } := by
  simp only [replayColumn, List.filterMap_cons, contentOf]
  exact filterMap_flatMap_eq _ _ _ _ (fun card _ => replayCard_contents env db conn column card)

theorem replay_cards (env : Env σ) (db : σ) (conn : Conn) (retroId : String) :
    (replay env db conn retroId).filterMap cardOf
      = (env.db.GetColumns db retroId).1.flatMap fun column =>
          (env.db.GetCards db conn.Name column.Id).1.map fun card =>
            { ColumnId := column.Id, CardId := card.Id, Revealed := card.Revealed,
              Votes := card.Votes, TotalVotes := card.TotalVotes } := by
  simp only [replay, List.filterMap_append]
  rw [filterMap_flatMap_eq _ _ _ _ (fun column _ => replayColumn_cards env db conn column)]
  split <;> simp [cardOf]

theorem replay_contents (env : Env σ) (db : σ) (conn : Conn) (retroId : String) :
    (replay env db conn retroId).filterMap contentOf
      = (env.db.GetColumns db retroId).1.flatMap fun column =>
          (env.db.GetCards db conn.Name column.Id).1.flatMap fun card =>
            (env.db.GetContents db card.Id).1.map fun content =>
              { ColumnId := column.Id, CardId := card.Id, ContentId := content.Id,
                CardText := content.Text } := by
  simp only [replay, List.filterMap_append]
  rw [filterMap_flatMap_eq _ _ _ _ (fun column _ => replayColumn_contents env db conn column)]
  split <;> simp [contentOf]

theorem joinRetro_events (env : Env σ) (conn : Conn) (data : Bytes) (db : σ)
    (args : joinRetroArgs) (hdec : env.json.joinRetroArgs data = some args)
    (hretro : (env.db.GetRetro db args.RetroId).2 = none)
    (hcols : (env.db.GetColumns db args.RetroId).2 = none) :
    events (run (joinRetro env) conn data db).2.trace
      = replay env db { conn with RetroId := args.RetroId } args.RetroId := by
  simp only [run, joinRetro, hdec, Env.GetRetro, World.query, World.start, World.emit_db, hretro,
    Env.GetColumns]
  by_cases hs : (env.db.GetRetro db args.RetroId).1.Stage = ""
  · simp [hs, hcols, joinRetroColumns_events, replay]
  · simp [hs, hcols, joinRetroColumns_events, replay, Conn.Send]

theorem mem_trace_cases (t : List Effect) (e : Effect) (he : e ∈ t) :
    e.isCall = true ∨ e ∈ events t := by
  cases h : e.isCall
  · right; simp [events, he, h]
  · left; rfl

/-- C4.  `joinRetro`, when the payload decodes and `GetRetro` and `GetColumns` succeed,
emits exactly the replay the specification words: the `stage` event iff the stage is set,
then per column (in the order `GetColumns` returns) a `column` event, per card returned by
`GetCards` for the viewer a `card` event with the viewer-scoped votes and the total, and per
content returned by `GetContents` a `content` event.  So the `card` events are the returned
cards one for one, the `content` events the returned contents one for one, every event is a
`Send` on the joining connection, and the trace holds no `Broadcast`. -/
theorem joinRetro_replay (env : Env σ) (conn : Conn) (data : Bytes) (db : σ)
    (args : joinRetroArgs) (hdec : env.json.joinRetroArgs data = some args)
    (hretro : (env.db.GetRetro db args.RetroId).2 = none)
    (hcols : (env.db.GetColumns db args.RetroId).2 = none) :
    events (run (joinRetro env) conn data db).2.trace
        = replay env db { conn with RetroId := args.RetroId } args.RetroId
    ∧ (events (run (joinRetro env) conn data db).2.trace).filterMap cardOf
        = ((env.db.GetColumns db args.RetroId).1.flatMap fun column =>
            (env.db.GetCards db conn.Name column.Id).1.map fun card =>
              { ColumnId := column.Id, CardId := card.Id, Revealed := card.Revealed,
                Votes := card.Votes, TotalVotes := card.TotalVotes })
    ∧ (events (run (joinRetro env) conn data db).2.trace).filterMap contentOf
        = ((env.db.GetColumns db args.RetroId).1.flatMap fun column =>
            (env.db.GetCards db conn.Name column.Id).1.flatMap fun card =>
              (env.db.GetContents db card.Id).1.map fun content =>
                { ColumnId := column.Id, CardId := card.Id, ContentId := content.Id,
                  CardText := content.Text })
    ∧ (∀ e ∈ events (run (joinRetro env) conn data db).2.trace,
        ∃ a op b, e = Effect.send { conn with RetroId := args.RetroId } a op b)
    ∧ (∀ e ∈ (run (joinRetro env) conn data db).2.trace, e.isBroadcast = false) := by
  have h := joinRetro_events env conn data db args hdec hretro hcols
  refine ⟨h, ?_, ?_, ?_, ?_⟩
  · rw [h]; exact replay_cards env db _ _
  · rw [h]; exact replay_contents env db _ _
  · rw [h]; exact replay_send env db _ _
  · intro e he
    rcases mem_trace_cases _ e he with hc | hev
    · cases e <;> simp_all [Effect.isCall, Effect.isBroadcast]
    · rw [h] at hev
      obtain ⟨a, op, b, rfl⟩ := replay_send env db _ _ e hev
      rfl

/-! ### `createRetro` -/

theorem addParticipants_trace (env : Env σ) (retroId : String) (users : List String)
    (w : World σ) :
    (users.foldl (fun w user => (env.AddParticipant retroId user w).w) w).trace
      = w.trace ++ users.map fun user => Effect.call (StoreCall.AddParticipant retroId user) := by
  induction users generalizing w with
  | nil => simp
  | cons u us ih =>
    simp only [List.foldl_cons, List.map_cons]
    rw [ih]
    simp [Env.AddParticipant, World.update]

theorem addParticipants_db (env : Env σ) (retroId : String) (users : List String)
    (w : World σ) :
    (users.foldl (fun w user => (env.AddParticipant retroId user w).w) w).db
      = users.foldl (fun s user => (env.db.AddParticipant s retroId user).2) w.db := by
  induction users generalizing w with
  | nil => rfl
  | cons u us ih =>
    simp only [List.foldl_cons]
    rw [ih]
    rfl

/-- C2.  On a decodable payload `(name, users)` from the connection of user `c`,
`createRetro` makes these Store calls and no other, in this order: `AddRetro` of a retro with
the new id, the given name and the empty stage; `AddColumn` of the five columns Start, More,
Keep, Less, Stop with orders 0 to 4, each owned by the new retro id; `AddParticipant` of the
new retro id for each listed user and then for `c`, so that the registered participants are
exactly the set `users ∪ {c}`.  It then emits one event, a `retro` event by `Send` on the
requesting connection; no `Broadcast` occurs.  The Store state it leaves is the one these
writes produce, applied in that order to the state it found. -/
theorem createRetro_trace (env : Env σ) (conn : Conn) (data : Bytes) (db : σ)
    (args : createRetroArgs) (hdec : env.json.createRetroArgs data = some args) :
    (run (createRetro env) conn data db).2.trace
        = [Effect.call (StoreCall.AddRetro
              { Id := env.strId 0, Name := args.Name, Stage := "", CreatedAt := env.now }),
           Effect.call (StoreCall.AddColumn
              { Id := env.strId 1, Retro := env.strId 0, Name := "Start", Order := 0 }),
           Effect.call (StoreCall.AddColumn
              { Id := env.strId 2, Retro := env.strId 0, Name := "More", Order := 1 }),
           Effect.call (StoreCall.AddColumn
              { Id := env.strId 3, Retro := env.strId 0, Name := "Keep", Order := 2 }),
           Effect.call (StoreCall.AddColumn
              { Id := env.strId 4, Retro := env.strId 0, Name := "Less", Order := 3 }),
           Effect.call (StoreCall.AddColumn
              { Id := env.strId 5, Retro := env.strId 0, Name := "Stop", Order := 4 })]
          ++ (args.Users ++ [conn.Name]).map
              (fun user => Effect.call (StoreCall.AddParticipant (env.strId 0) user))
          ++ [Effect.send conn conn.Name "retro"
                (Body.retro { Id := env.strId 0, Name := args.Name, CreatedAt := env.now,
                              Participants := args.Users ++ [conn.Name] })]
    ∧ (∀ r u, StoreCall.AddParticipant r u ∈ storeCalls (run (createRetro env) conn data db).2.trace
        ↔ r = env.strId 0 ∧ (u ∈ args.Users ∨ u = conn.Name))
    ∧ events (run (createRetro env) conn data db).2.trace
        = [Effect.send conn conn.Name "retro"
            (Body.retro { Id := env.strId 0, Name := args.Name, CreatedAt := env.now,
                          Participants := args.Users ++ [conn.Name] })]
    ∧ (∀ e ∈ (run (createRetro env) conn data db).2.trace, e.isBroadcast = false)
    ∧ (run (createRetro env) conn data db).2.db
        = (args.Users ++ [conn.Name]).foldl
            (fun s user => (env.db.AddParticipant s (env.strId 0) user).2)
            (env.db.AddColumn
              (env.db.AddColumn
                (env.db.AddColumn
                  (env.db.AddColumn
                    (env.db.AddColumn
                      (env.db.AddRetro db
                        { Id := env.strId 0, Name := args.Name, Stage := "",
                          CreatedAt := env.now }).2
                      { Id := env.strId 1, Retro := env.strId 0, Name := "Start",
                        Order := 0 }).2
                    { Id := env.strId 2, Retro := env.strId 0, Name := "More", Order := 1 }).2
                  { Id := env.strId 3, Retro := env.strId 0, Name := "Keep", Order := 2 }).2
                { Id := env.strId 4, Retro := env.strId 0, Name := "Less", Order := 3 }).2
              { Id := env.strId 5, Retro := env.strId 0, Name := "Stop", Order := 4 }).2 := by
  have h : (run (createRetro env) conn data db).2.trace
        = [Effect.call (StoreCall.AddRetro
              { Id := env.strId 0, Name := args.Name, Stage := "", CreatedAt := env.now }),
           Effect.call (StoreCall.AddColumn
              { Id := env.strId 1, Retro := env.strId 0, Name := "Start", Order := 0 }),
           Effect.call (StoreCall.AddColumn
              { Id := env.strId 2, Retro := env.strId 0, Name := "More", Order := 1 }),
           Effect.call (StoreCall.AddColumn
              { Id := env.strId 3, Retro := env.strId 0, Name := "Keep", Order := 2 }),
           Effect.call (StoreCall.AddColumn
              { Id := env.strId 4, Retro := env.strId 0, Name := "Less", Order := 3 }),
           Effect.call (StoreCall.AddColumn
              { Id := env.strId 5, Retro := env.strId 0, Name := "Stop", Order := 4 })]
          ++ (args.Users ++ [conn.Name]).map
              (fun user => Effect.call (StoreCall.AddParticipant (env.strId 0) user))
          ++ [Effect.send conn conn.Name "retro"
                (Body.retro { Id := env.strId 0, Name := args.Name, CreatedAt := env.now,
                              Participants := args.Users ++ [conn.Name] })] := by
    simp only [run, createRetro, hdec, Conn.Send, World.emit_trace, addParticipants_trace]
    simp [Env.AddRetro, Env.AddColumn, World.update, World.start]
  have hcalls : ∀ (l : List String) (r : String),
      storeCalls (l.map fun user => Effect.call (StoreCall.AddParticipant r user))
        = l.map fun user => StoreCall.AddParticipant r user := by
    intro l r
    induction l with
    | nil => rfl
    | cons x xs ih => simp [ih]
  have hev : ∀ (l : List String) (r : String),
      events (l.map fun user => Effect.call (StoreCall.AddParticipant r user)) = [] := by
    intro l r
    induction l with
    | nil => rfl
    | cons x xs ih => simp [ih]
  refine ⟨h, ?_, ?_, ?_, ?_⟩
  · intro r u
    rw [h]
    simp only [storeCalls_append, storeCalls_call, storeCalls_send, storeCalls_nil, hcalls]
    simp only [List.cons_append, List.nil_append, List.append_nil, List.mem_cons, List.mem_map,
      List.mem_append, List.mem_singleton, StoreCall.AddParticipant.injEq, reduceCtorEq,
      false_or, List.not_mem_nil, or_false]
    constructor
    · rintro ⟨x, hx, rfl, rfl⟩
      exact ⟨rfl, hx⟩
    · rintro ⟨rfl, hx⟩
      exact ⟨u, hx, rfl, rfl⟩
  · rw [h]
    simp only [events_append, events_call, events_send, events_nil, hev]
    rfl
  · intro e he
    rw [h] at he
    simp only [List.cons_append, List.nil_append, List.mem_cons, List.mem_append, List.mem_map,
      List.mem_singleton, List.not_mem_nil, or_false] at he
    rcases he with rfl | rfl | rfl | rfl | rfl | rfl | he
    all_goals first
      | rfl
      | (rcases he with ⟨_, -, rfl⟩ | rfl <;> rfl)
  · simp only [run, createRetro, hdec, Conn.Send, World.emit_db, addParticipants_db]
    rfl

/-! ### `add` -/

/-- C5.  On a decodable payload `(columnId, cardText)` from the connection of user `c`,
when `AddCard` and `AddContent` both succeed, `add` does exactly this, in order: one `AddCard`
of a card in `columnId`, unrevealed and with zero votes; one `AddContent` of a content on
that card with text `cardText` and author `c`; a `card` Broadcast with empty excluded author
carrying revealed = false, votes = 0 and totalVotes = 0; a `content` Broadcast with excluded
author `c` carrying the same column id, the card id and `cardText`.  The Store state it leaves is the
one `AddContent` produces from the state `AddCard` produced. -/
theorem add_trace (env : Env σ) (conn : Conn) (data : Bytes) (db : σ) (args : addArgs)
    (hdec : env.json.addArgs data = some args)
    (hcard : (env.db.AddCard db
        { Id := env.strId 0, Column := args.ColumnId, Votes := 0, Revealed := false,
          TotalVotes := 0 }).1 = none)
    (hcontent : (env.db.AddContent
        (env.db.AddCard db
          { Id := env.strId 0, Column := args.ColumnId, Votes := 0, Revealed := false,
            TotalVotes := 0 }).2
        { Id := env.strId 1, Card := env.strId 0, Text := args.CardText,
          Author := conn.Name }).1 = none) :
    (run (add env) conn data db).2.trace
      = [Effect.call (StoreCall.AddCard
            { Id := env.strId 0, Column := args.ColumnId, Votes := 0, Revealed := false,
              TotalVotes := 0 }),
         Effect.call (StoreCall.AddContent
            { Id := env.strId 1, Card := env.strId 0, Text := args.CardText,
              Author := conn.Name }),
         Effect.broadcast conn "" "card"
            (Body.card { ColumnId := args.ColumnId, CardId := env.strId 0, Revealed := false,
                         Votes := 0, TotalVotes := 0 }),
         Effect.broadcast conn conn.Name "content"
            (Body.content { ColumnId := args.ColumnId, CardId := env.strId 0,
                            ContentId := env.strId 1, CardText := args.CardText })]
    ∧ (run (add env) conn data db).2.db
      = (env.db.AddContent
          (env.db.AddCard db
            { Id := env.strId 0, Column := args.ColumnId, Votes := 0, Revealed := false,
              TotalVotes := 0 }).2
          { Id := env.strId 1, Card := env.strId 0, Text := args.CardText,
            Author := conn.Name }).2 := by
  constructor
  · simp [run, add, hdec, Env.AddCard, Env.AddContent, World.update, World.start, hcard,
      hcontent, Conn.Broadcast]
  · simp [run, add, hdec, Env.AddCard, Env.AddContent, World.update, World.start, hcard,
      hcontent, Conn.Broadcast]

/-! ### The mutation handlers -/

theorem mutation_events_shape (env : Env σ) (conn : Conn) (data : Bytes) (db : σ)
    (h : Handler σ) (hh : h ∈ mutationHandlers env) :
    ∀ e ∈ events (run h conn data db).2.trace,
      ∃ op b, e = Effect.broadcast conn conn.Name op b := by
  simp only [mutationHandlers, List.mem_cons, List.mem_singleton, List.not_mem_nil,
    or_false] at hh
  rcases hh with rfl | rfl | rfl | rfl | rfl | rfl | rfl | rfl
  · intro e he
    simp only [run, edit, World.start] at he
    split at he
    · simp at he
    · simp only [Env.UpdateContent, World.update] at he
      split at he
      · simp at he
      · simp only [Conn.Broadcast, World.emit_trace, List.nil_append, List.cons_append,
          events_call, events_broadcast, events_nil, List.mem_singleton] at he
        exact ⟨_, _, he⟩
  all_goals
    intro e he
    simp only [run, move, stage, reveal, group, vote, unvote, delete, World.start] at he
    split at he
    · simp at he
    · simp only [Env.MoveCard, Env.SetStage, Env.RevealCard, Env.GroupCards, Env.Vote,
        Env.Unvote, Env.DeleteCard, World.update, Conn.Broadcast, World.emit_trace,
        List.nil_append, List.cons_append, events_call, events_broadcast, events_nil,
        List.mem_singleton] at he
      exact ⟨_, _, he⟩

/-- C6.  For each of edit, move, stage, reveal, group, vote, unvote and delete: on a
decodable payload from the connection of user `c` (and, for edit, when `UpdateContent`
succeeds) the handler emits exactly one event, a Broadcast on the requesting connection with
excluded author `c` and with the event name `content`, `move`, `stage`, `reveal`, `group`,
`vote`, `unvote`, `delete` respectively.  The excluded author is the username, so it is not
the empty string for a named user, and no `Send` occurs. -/
theorem mutation_broadcast (env : Env σ) (conn : Conn) (data : Bytes) (db : σ) :
    (∀ a, env.json.contentData data = some a →
        (env.db.UpdateContent db a.ContentId a.CardText).1 = none →
        events (run (edit env) conn data db).2.trace
          = [Effect.broadcast conn conn.Name "content" (Body.content a)])
    ∧ (∀ a, env.json.moveData data = some a →
        events (run (move env) conn data db).2.trace
          = [Effect.broadcast conn conn.Name "move" (Body.move a)])
    ∧ (∀ a, env.json.stageData data = some a →
        events (run (stage env) conn data db).2.trace
          = [Effect.broadcast conn conn.Name "stage" (Body.stage a)])
    ∧ (∀ a, env.json.revealData data = some a →
        events (run (reveal env) conn data db).2.trace
          = [Effect.broadcast conn conn.Name "reveal" (Body.reveal a)])
    ∧ (∀ a, env.json.groupData data = some a →
        events (run (group env) conn data db).2.trace
          = [Effect.broadcast conn conn.Name "group" (Body.group a)])
    ∧ (∀ a, env.json.voteData data = some a →
        events (run (vote env) conn data db).2.trace
          = [Effect.broadcast conn conn.Name "vote"
              (Body.vote { a with UserId := conn.Name })])
    ∧ (∀ a, env.json.voteData data = some a →
        events (run (unvote env) conn data db).2.trace
          = [Effect.broadcast conn conn.Name "unvote"
              (Body.vote { a with UserId := conn.Name })])
    ∧ (∀ a, env.json.deleteData data = some a →
        events (run (delete env) conn data db).2.trace
          = [Effect.broadcast conn conn.Name "delete" (Body.delete a)])
    ∧ (∀ h ∈ mutationHandlers env, ∀ e ∈ events (run h conn data db).2.trace,
        e.isBroadcast = true ∧ e.isSend = false ∧ e.excludedAuthor = some conn.Name)
    ∧ (conn.Name ≠ "" →
        ∀ h ∈ mutationHandlers env, ∀ e ∈ events (run h conn data db).2.trace,
          e.excludedAuthor ≠ some "") := by
  refine ⟨?_, ?_, ?_, ?_, ?_, ?_, ?_, ?_, ?_, ?_⟩
  · intro a hdec hok
    simp [run, edit, hdec, Env.UpdateContent, World.update, World.start, hok, Conn.Broadcast]
  · intro a hdec
    simp [run, move, hdec, Env.MoveCard, World.update, World.start, Conn.Broadcast]
  · intro a hdec
    simp [run, stage, hdec, Env.SetStage, World.update, World.start, Conn.Broadcast]
  · intro a hdec
    simp [run, reveal, hdec, Env.RevealCard, World.update, World.start, Conn.Broadcast]
  · intro a hdec
    simp [run, group, hdec, Env.GroupCards, World.update, World.start, Conn.Broadcast]
  · intro a hdec
    simp [run, vote, hdec, Env.Vote, World.update, World.start, Conn.Broadcast]
  · intro a hdec
    simp [run, unvote, hdec, Env.Unvote, World.update, World.start, Conn.Broadcast]
  · intro a hdec
    simp [run, delete, hdec, Env.DeleteCard, World.update, World.start, Conn.Broadcast]
  · intro h hh e he
    obtain ⟨op, b, rfl⟩ := mutation_events_shape env conn data db h hh e he
    exact ⟨rfl, rfl, rfl⟩
  · intro hne h hh e he
    obtain ⟨op, b, rfl⟩ := mutation_events_shape env conn data db h hh e he
    intro hc
    injection hc with hc
    exact hne hc

theorem menu_conn (env : Env σ) (conn : Conn) (data : Bytes) (w : World σ) :
    (menu env conn data w).1 = conn := by
  simp only [menu]
  split
  · rfl
  · split <;> rfl

theorem add_conn (env : Env σ) (conn : Conn) (data : Bytes) (w : World σ) :
    (add env conn data w).1 = conn := by
  simp only [add]
  split
  · rfl
  · split
    · rfl
    · split <;> rfl

theorem edit_conn (env : Env σ) (conn : Conn) (data : Bytes) (w : World σ) :
    (edit env conn data w).1 = conn := by
  simp only [edit]
  split
  · rfl
  · split <;> rfl

theorem simple_conn (env : Env σ) (conn : Conn) (data : Bytes) (w : World σ) :
    (move env conn data w).1 = conn ∧ (stage env conn data w).1 = conn
    ∧ (reveal env conn data w).1 = conn ∧ (group env conn data w).1 = conn
    ∧ (vote env conn data w).1 = conn ∧ (unvote env conn data w).1 = conn
    ∧ (delete env conn data w).1 = conn ∧ (createRetro env conn data w).1 = conn := by
  refine ⟨?_, ?_, ?_, ?_, ?_, ?_, ?_, ?_⟩
  · simp only [move]; split <;> rfl
  · simp only [stage]; split <;> rfl
  · simp only [reveal]; split <;> rfl
  · simp only [group]; split <;> rfl
  · simp only [vote]; split <;> rfl
  · simp only [unvote]; split <;> rfl
  · simp only [delete]; split <;> rfl
  · simp only [createRetro]; split <;> rfl

theorem other_handlers_conn (env : Env σ) (op : String) (h : Handler σ)
    (hreg : (op, h) ∈ registerHandlers env) (hop : op ≠ "joinRetro") (conn : Conn)
    (data : Bytes) (w : World σ) : (h conn data w).1 = conn := by
  have hs := simple_conn env conn data w
  have key : ∀ p ∈ registerHandlers env, p.1 ≠ "joinRetro" → (p.2 conn data w).1 = conn := by
    simp only [registerHandlers, List.forall_mem_cons, List.not_mem_nil]
    refine ⟨fun hne => absurd rfl hne, fun _ => menu_conn env conn data w,
      fun _ => add_conn env conn data w, fun _ => edit_conn env conn data w,
      fun _ => hs.1, fun _ => hs.2.1, fun _ => hs.2.2.1, fun _ => hs.2.2.2.1,
      fun _ => hs.2.2.2.2.1, fun _ => hs.2.2.2.2.2.1, fun _ => hs.2.2.2.2.2.2.1,
      fun _ => hs.2.2.2.2.2.2.2, ?_⟩
    intro x hx
    exact absurd hx (by simp)
  exact key (op, h) hreg hop

/-- C8.  `joinRetro` sets the connection's `RetroId` to the requested id when the payload
decodes and `GetRetro` succeeds, and leaves the connection as it was when the payload does
not decode or `GetRetro` returns an error.  Every other registered handler (menu, add, edit,
move, stage, reveal, group, vote, unvote, delete, createRetro, all of them registered) and
the on-connect hook leave the connection, hence its `RetroId`, as it was, on every input. -/
theorem retroId_binding (env : Env σ) (conn : Conn) (data : Bytes) (w : World σ) :
    (∀ a, env.json.joinRetroArgs data = some a → (env.db.GetRetro w.db a.RetroId).2 = none →
        (joinRetro env conn data w).1 = { conn with RetroId := a.RetroId })
    ∧ (env.json.joinRetroArgs data = none → (joinRetro env conn data w).1 = conn)
    ∧ (∀ a, env.json.joinRetroArgs data = some a →
        (env.db.GetRetro w.db a.RetroId).2 ≠ none → (joinRetro env conn data w).1 = conn)
    ∧ (∀ op h, (op, h) ∈ registerHandlers env → op ≠ "joinRetro" →
        (h conn data w).1 = conn ∧ (h conn data w).1.RetroId = conn.RetroId)
    ∧ (registerHandlers env).map Prod.fst
        = ["joinRetro", "menu", "add", "edit", "move", "stage", "reveal", "group", "vote",
           "unvote", "delete", "createRetro"]
    ∧ (OnConnect conn w).1 = conn := by
  refine ⟨?_, ?_, ?_, ?_, rfl, rfl⟩
  · intro a hdec hok
    simp only [joinRetro, hdec, Env.GetRetro, World.query, hok]
    split <;> rfl
  · intro hdec
    simp [joinRetro, hdec]
  · intro a hdec herr
    simp only [joinRetro, hdec, Env.GetRetro, World.query]
    split
    · rfl
    · rename_i hnone
      exact absurd hnone herr
  · intro op h hreg hop
    have := other_handlers_conn env op h hreg hop conn data w
    exact ⟨this, by rw [this]⟩

/-! ### Decode failure -/

/-- C9.  For each handler that decodes a payload (joinRetro, add, edit, move, stage, reveal,
group, vote, unvote, delete, createRetro): when the payload does not decode, the handler
returns the connection and the world it was given, so it makes no Store call, emits no
`Send` and no `Broadcast` (no `error` event either) and leaves the connection unchanged. -/
theorem decode_failure_noop (env : Env σ) (conn : Conn) (data : Bytes) (w : World σ) :
    (env.json.joinRetroArgs data = none → joinRetro env conn data w = (conn, w))
    ∧ (env.json.addArgs data = none → add env conn data w = (conn, w))
    ∧ (env.json.contentData data = none → edit env conn data w = (conn, w))
    ∧ (env.json.moveData data = none → move env conn data w = (conn, w))
    ∧ (env.json.stageData data = none → stage env conn data w = (conn, w))
    ∧ (env.json.revealData data = none → reveal env conn data w = (conn, w))
    ∧ (env.json.groupData data = none → group env conn data w = (conn, w))
    ∧ (env.json.voteData data = none → vote env conn data w = (conn, w))
    ∧ (env.json.voteData data = none → unvote env conn data w = (conn, w))
    ∧ (env.json.deleteData data = none → delete env conn data w = (conn, w))
    ∧ (env.json.createRetroArgs data = none → createRetro env conn data w = (conn, w)) := by
  refine ⟨?_, ?_, ?_, ?_, ?_, ?_, ?_, ?_, ?_, ?_, ?_⟩ <;> intro h
  · simp [joinRetro, h]
  · simp [add, h]
  · simp [edit, h]
  · simp [move, h]
  · simp [stage, h]
  · simp [reveal, h]
  · simp [group, h]
  · simp [vote, h]
  · simp [unvote, h]
  · simp [delete, h]
  · simp [createRetro, h]

/-! ### Store errors -/

/-- The handlers that test the Store error, `add` and `edit`: on every input, if a Store
call made by the handler returns an error, the handler returns at once, without any Broadcast
and without any other event.  (After a failed `AddCard`, `add` does not call `AddContent`.) -/
theorem add_edit_abort_on_store_error (env : Env σ) (conn : Conn) (data : Bytes) (db : σ) :
    (∀ a, env.json.addArgs data = some a →
        (env.db.AddCard db
          { Id := env.strId 0, Column := a.ColumnId, Votes := 0, Revealed := false,
            TotalVotes := 0 }).1 ≠ none →
        (run (add env) conn data db).2.trace
            = [Effect.call (StoreCall.AddCard
                { Id := env.strId 0, Column := a.ColumnId, Votes := 0, Revealed := false,
                  TotalVotes := 0 })]
          ∧ events (run (add env) conn data db).2.trace = [])
    ∧ (∀ a, env.json.addArgs data = some a →
        (env.db.AddCard db
          { Id := env.strId 0, Column := a.ColumnId, Votes := 0, Revealed := false,
            TotalVotes := 0 }).1 = none →
        (env.db.AddContent
          (env.db.AddCard db
            { Id := env.strId 0, Column := a.ColumnId, Votes := 0, Revealed := false,
              TotalVotes := 0 }).2
          { Id := env.strId 1, Card := env.strId 0, Text := a.CardText,
            Author := conn.Name }).1 ≠ none →
        (run (add env) conn data db).2.trace
            = [Effect.call (StoreCall.AddCard
                { Id := env.strId 0, Column := a.ColumnId, Votes := 0, Revealed := false,
                  TotalVotes := 0 }),
               Effect.call (StoreCall.AddContent
                { Id := env.strId 1, Card := env.strId 0, Text := a.CardText,
                  Author := conn.Name })]
          ∧ events (run (add env) conn data db).2.trace = [])
    ∧ (∀ a, env.json.contentData data = some a →
        (env.db.UpdateContent db a.ContentId a.CardText).1 ≠ none →
        (run (edit env) conn data db).2.trace
            = [Effect.call (StoreCall.UpdateContent a.ContentId a.CardText)]
          ∧ events (run (edit env) conn data db).2.trace = []) := by
  refine ⟨?_, ?_, ?_⟩
  · intro a hdec herr
    obtain ⟨e, he⟩ := Option.ne_none_iff_exists'.mp herr
    simp [run, add, hdec, Env.AddCard, World.update, World.start, he]
  · intro a hdec hok herr
    obtain ⟨e, he⟩ := Option.ne_none_iff_exists'.mp herr
    simp [run, add, hdec, Env.AddCard, Env.AddContent, World.update, World.start, hok, he]
  · intro a hdec herr
    obtain ⟨e, he⟩ := Option.ne_none_iff_exists'.mp herr
    simp [run, edit, hdec, Env.UpdateContent, World.update, World.start, he]

/-! ### Room scoping of the Store calls -/

/-- C1 on the example Store: the stored pair is accepted, an unknown user and a wrong token
are rejected. -/
theorem IsUser_iff_witness :
    (IsUser Example.env "alice" "tok-a" (World.start Example.mem)).1 = true
    ∧ (IsUser Example.env "carol" "" (World.start Example.mem)).1 = false
    ∧ (IsUser Example.env "alice" "tok-b" (World.start Example.mem)).1 = false :=
  ⟨(IsUser_iff Example.env "alice" "tok-a" (World.start Example.mem)).1.2 (by decide),
   (IsUser_iff Example.env "carol" "" (World.start Example.mem)).2.2.2.2.2.1 (by decide),
   (IsUser_iff Example.env "alice" "tok-b" (World.start Example.mem)).2.2.2.2.2.2 (by decide)⟩

/-- C4 on the example board: alice joins `r1` from the lobby. -/
theorem joinRetro_replay_witness :
    Example.env.json.joinRetroArgs [1] = some { RetroId := "r1" }
    ∧ (Example.env.db.GetRetro Example.mem "r1").2 = none
    ∧ (Example.env.db.GetColumns Example.mem "r1").2 = none
    ∧ events (run (joinRetro Example.env) Example.aliceLobby [1] Example.mem).2.trace
        = replay Example.env Example.mem { Name := "alice", RetroId := "r1" } "r1"
    ∧ (events (run (joinRetro Example.env) Example.aliceLobby [1] Example.mem).2.trace).length
        = 8
    ∧ (events (run (joinRetro Example.env) Example.aliceLobby [1]
          Example.mem).2.trace).filterMap cardOf
        = [{ ColumnId := "c1", CardId := "k1", Revealed := false, Votes := 0, TotalVotes := 0 },
           { ColumnId := "c2", CardId := "k2", Revealed := true, Votes := 1, TotalVotes := 2 }] :=
  ⟨by decide, by decide, by decide,
   (joinRetro_replay Example.env Example.aliceLobby [1] Example.mem { RetroId := "r1" }
      (by decide) (by decide) (by decide)).1,
   by decide, by decide⟩

/-- C3.  The handlers move, stage, reveal, group, vote, unvote, delete and createRetro do
not stop at a Store error as `add` and `edit` do: on a Store whose every call returns an
error, each of them still emits its event after the failed call (a Broadcast, and for
createRetro the `retro` Send). -/
theorem store_error_still_emits :
    (Example.failDb.MoveCard () "k1" "c2").1 = some "store down"
    ∧ (run (move Example.failEnv) Example.alice [1] ()).2.trace
        = [Effect.call (StoreCall.MoveCard "k1" "c2"),
           Effect.broadcast Example.alice "alice" "move"
            (Body.move { ColumnFrom := "c1", ColumnTo := "c2", CardId := "k1" })]
    ∧ (Example.failDb.SetStage () "r1" "vote").1 = some "store down"
    ∧ (run (stage Example.failEnv) Example.alice [1] ()).2.trace
        = [Effect.call (StoreCall.SetStage "r1" "vote"),
           Effect.broadcast Example.alice "alice" "stage" (Body.stage { Stage := "vote" })]
    ∧ (Example.failDb.RevealCard () "k1").1 = some "store down"
    ∧ (run (reveal Example.failEnv) Example.alice [1] ()).2.trace
        = [Effect.call (StoreCall.RevealCard "k1"),
           Effect.broadcast Example.alice "alice" "reveal"
            (Body.reveal { ColumnId := "c1", CardId := "k1" })]
    ∧ (Example.failDb.GroupCards () "k1" "k2").1 = some "store down"
    ∧ (run (group Example.failEnv) Example.alice [1] ()).2.trace
        = [Effect.call (StoreCall.GroupCards "k1" "k2"),
           Effect.broadcast Example.alice "alice" "group"
            (Body.group { ColumnFrom := "c1", CardFrom := "k1", ColumnTo := "c2",
                          CardTo := "k2" })]
    ∧ (Example.failDb.Vote () "alice" "k1").1 = some "store down"
    ∧ (run (vote Example.failEnv) Example.alice [1] ()).2.trace
        = [Effect.call (StoreCall.Vote "alice" "k1"),
           Effect.broadcast Example.alice "alice" "vote"
            (Body.vote { UserId := "alice", ColumnId := "c1", CardId := "k1" })]
    ∧ (Example.failDb.Unvote () "alice" "k1").1 = some "store down"
    ∧ (run (unvote Example.failEnv) Example.alice [1] ()).2.trace
        = [Effect.call (StoreCall.Unvote "alice" "k1"),
           Effect.broadcast Example.alice "alice" "unvote"
            (Body.vote { UserId := "alice", ColumnId := "c1", CardId := "k1" })]
    ∧ (Example.failDb.DeleteCard () "k1").1 = some "store down"
    ∧ (run (delete Example.failEnv) Example.alice [1] ()).2.trace
        = [Effect.call (StoreCall.DeleteCard "k1"),
           Effect.broadcast Example.alice "alice" "delete"
            (Body.delete { ColumnId := "c1", CardId := "k1" })]
    ∧ (Example.failDb.AddRetro ()
          { Id := "id0", Name := "Sprint 1", Stage := "", CreatedAt := 42 }).1
        = some "store down"
    ∧ events (run (createRetro Example.failEnv) Example.alice [1] ()).2.trace
        = [Effect.send Example.alice "alice" "retro"
            (Body.retro { Id := "id0", Name := "Sprint 1", CreatedAt := 42,
                          Participants := ["bob", "alice"] })] := by
  decide

/-- C2 on the example Store: createRetro("Sprint 1", ["bob"]) by alice. -/
theorem createRetro_trace_witness :
    Example.env.json.createRetroArgs [1] = some { Name := "Sprint 1", Users := ["bob"] }
    ∧ (∀ r u, StoreCall.AddParticipant r u
          ∈ storeCalls (run (createRetro Example.env) Example.alice [1] Example.mem).2.trace
        ↔ r = "id0" ∧ (u ∈ ["bob"] ∨ u = "alice"))
    ∧ events (run (createRetro Example.env) Example.alice [1] Example.mem).2.trace
        = [Effect.send Example.alice "alice" "retro"
            (Body.retro { Id := "id0", Name := "Sprint 1", CreatedAt := 42,
                          Participants := ["bob", "alice"] })]
    ∧ (run (createRetro Example.env) Example.alice [1] Example.mem).2.db
        = { Example.mem with
            retros := Example.mem.retros
              ++ [{ Id := "id0", Name := "Sprint 1", Stage := "", CreatedAt := 42 }]
            columns := Example.mem.columns
              ++ [{ Id := "id1", Retro := "id0", Name := "Start", Order := 0 },
                  { Id := "id2", Retro := "id0", Name := "More", Order := 1 },
                  { Id := "id3", Retro := "id0", Name := "Keep", Order := 2 },
                  { Id := "id4", Retro := "id0", Name := "Less", Order := 3 },
                  { Id := "id5", Retro := "id0", Name := "Stop", Order := 4 }]
            participants := Example.mem.participants ++ [("id0", "bob"), ("id0", "alice")] }
    ∧ (Example.memDb.GetColumns
          (run (createRetro Example.env) Example.alice [1] Example.mem).2.db "id0").1
        = [{ Id := "id1", Retro := "id0", Name := "Start", Order := 0 },
           { Id := "id2", Retro := "id0", Name := "More", Order := 1 },
           { Id := "id3", Retro := "id0", Name := "Keep", Order := 2 },
           { Id := "id4", Retro := "id0", Name := "Less", Order := 3 },
           { Id := "id5", Retro := "id0", Name := "Stop", Order := 4 }]
    ∧ (Example.memDb.GetParticipants
          (run (createRetro Example.env) Example.alice [1] Example.mem).2.db "id0").1
        = ["bob", "alice"] :=
  ⟨by decide,
   (createRetro_trace Example.env Example.alice [1] Example.mem
      { Name := "Sprint 1", Users := ["bob"] } (by decide)).2.1,
   (createRetro_trace Example.env Example.alice [1] Example.mem
      { Name := "Sprint 1", Users := ["bob"] } (by decide)).2.2.1,
   (createRetro_trace Example.env Example.alice [1] Example.mem
      { Name := "Sprint 1", Users := ["bob"] } (by decide)).2.2.2.2.trans (by decide),
   by decide, by decide⟩

/-- The handlers `add` and `edit` on Stores that fail: `AddCard` fails, `AddContent` fails
after `AddCard` worked, `UpdateContent` fails. -/
theorem add_edit_abort_on_store_error_witness :
    events (run (add Example.failEnv) Example.alice [1] ()).2.trace = []
    ∧ events (run (add Example.failContentEnv) Example.alice [1] Example.mem).2.trace = []
    ∧ events (run (edit Example.failEnv) Example.alice [1] ()).2.trace = [] :=
  ⟨((add_edit_abort_on_store_error Example.failEnv Example.alice [1] ()).1
      { ColumnId := "c1", CardText := "ship it" } (by decide) (by decide)).2,
   ((add_edit_abort_on_store_error Example.failContentEnv Example.alice [1] Example.mem).2.1
      { ColumnId := "c1", CardText := "ship it" } (by decide) (by decide) (by decide)).2,
   ((add_edit_abort_on_store_error Example.failEnv Example.alice [1] ()).2.2
      { ColumnId := "c1", CardId := "k1", ContentId := "t1", CardText := "ship it now" }
      (by decide) (by decide)).2⟩

/-- C5 on the example Store: alice adds "ship it" to column `c1`. -/
theorem add_trace_witness :
    Example.env.json.addArgs [1] = some { ColumnId := "c1", CardText := "ship it" }
    ∧ (run (add Example.env) Example.alice [1] Example.mem).2.trace
        = [Effect.call (StoreCall.AddCard
            { Id := "id0", Column := "c1", Votes := 0, Revealed := false, TotalVotes := 0 }),
           Effect.call (StoreCall.AddContent
            { Id := "id1", Card := "id0", Text := "ship it", Author := "alice" }),
           Effect.broadcast Example.alice "" "card"
            (Body.card { ColumnId := "c1", CardId := "id0", Revealed := false, Votes := 0,
                         TotalVotes := 0 }),
           Effect.broadcast Example.alice "alice" "content"
            (Body.content { ColumnId := "c1", CardId := "id0", ContentId := "id1",
                            CardText := "ship it" })]
    ∧ (run (add Example.env) Example.alice [1] Example.mem).2.db
        = { Example.mem with
            cards := Example.mem.cards
              ++ [{ Id := "id0", Column := "c1", Votes := 0, Revealed := false,
                    TotalVotes := 0 }]
            contents := Example.mem.contents
              ++ [{ Id := "id1", Card := "id0", Text := "ship it", Author := "alice" }] } :=
  ⟨by decide,
   (add_trace Example.env Example.alice [1] Example.mem
      { ColumnId := "c1", CardText := "ship it" } (by decide) (by decide) (by decide)).1,
   (add_trace Example.env Example.alice [1] Example.mem
      { ColumnId := "c1", CardText := "ship it" } (by decide) (by decide)
      (by decide)).2.trans (by decide)⟩

/-- C6 on the example Store: each of the eight handlers, called by alice. -/
theorem mutation_broadcast_witness :
    events (run (edit Example.env) Example.alice [1] Example.mem).2.trace
        = [Effect.broadcast Example.alice "alice" "content"
            (Body.content { ColumnId := "c1", CardId := "k1", ContentId := "t1",
                            CardText := "ship it now" })]
    ∧ events (run (move Example.env) Example.alice [1] Example.mem).2.trace
        = [Effect.broadcast Example.alice "alice" "move"
            (Body.move { ColumnFrom := "c1", ColumnTo := "c2", CardId := "k1" })]
    ∧ events (run (stage Example.env) Example.alice [1] Example.mem).2.trace
        = [Effect.broadcast Example.alice "alice" "stage" (Body.stage { Stage := "vote" })]
    ∧ events (run (reveal Example.env) Example.alice [1] Example.mem).2.trace
        = [Effect.broadcast Example.alice "alice" "reveal"
            (Body.reveal { ColumnId := "c1", CardId := "k1" })]
    ∧ events (run (group Example.env) Example.alice [1] Example.mem).2.trace
        = [Effect.broadcast Example.alice "alice" "group"
            (Body.group { ColumnFrom := "c1", CardFrom := "k1", ColumnTo := "c2",
                          CardTo := "k2" })]
    ∧ events (run (vote Example.env) Example.alice [1] Example.mem).2.trace
        = [Effect.broadcast Example.alice "alice" "vote"
            (Body.vote { UserId := "alice", ColumnId := "c1", CardId := "k1" })]
    ∧ events (run (unvote Example.env) Example.alice [1] Example.mem).2.trace
        = [Effect.broadcast Example.alice "alice" "unvote"
            (Body.vote { UserId := "alice", ColumnId := "c1", CardId := "k1" })]
    ∧ events (run (delete Example.env) Example.alice [1] Example.mem).2.trace
        = [Effect.broadcast Example.alice "alice" "delete"
            (Body.delete { ColumnId := "c1", CardId := "k1" })]
    ∧ (∀ h ∈ mutationHandlers Example.env,
        ∀ e ∈ events (run h Example.alice [1] Example.mem).2.trace,
          e.excludedAuthor ≠ some "") :=
  ⟨(mutation_broadcast Example.env Example.alice [1] Example.mem).1 _ (by decide) (by decide),
   (mutation_broadcast Example.env Example.alice [1] Example.mem).2.1 _ (by decide),
   (mutation_broadcast Example.env Example.alice [1] Example.mem).2.2.1 _ (by decide),
   (mutation_broadcast Example.env Example.alice [1] Example.mem).2.2.2.1 _ (by decide),
   (mutation_broadcast Example.env Example.alice [1] Example.mem).2.2.2.2.1 _ (by decide),
   (mutation_broadcast Example.env Example.alice [1] Example.mem).2.2.2.2.2.1
      { UserId := "mallory", ColumnId := "c1", CardId := "k1" } (by decide),
   (mutation_broadcast Example.env Example.alice [1] Example.mem).2.2.2.2.2.2.1
      { UserId := "mallory", ColumnId := "c1", CardId := "k1" } (by decide),
   (mutation_broadcast Example.env Example.alice [1] Example.mem).2.2.2.2.2.2.2.1 _
      (by decide),
   (mutation_broadcast Example.env Example.alice [1] Example.mem).2.2.2.2.2.2.2.2.2
      (by decide)⟩

/-- C8 on the example Stores: a successful join binds `r1`; a payload that does not decode
and a failing `GetRetro` leave the lobby connection as it was, and so does `menu`. -/
theorem retroId_binding_witness :
    (joinRetro Example.env Example.aliceLobby [1] (World.start Example.mem)).1
        = { Name := "alice", RetroId := "r1" }
    ∧ (joinRetro Example.env Example.aliceLobby [] (World.start Example.mem)).1
        = Example.aliceLobby
    ∧ (joinRetro Example.failEnv Example.aliceLobby [1] (World.start ())).1
        = Example.aliceLobby
    ∧ (menu Example.env Example.aliceLobby [1] (World.start Example.mem)).1.RetroId = "" :=
  ⟨(retroId_binding Example.env Example.aliceLobby [1] (World.start Example.mem)).1
      { RetroId := "r1" } (by decide) (by decide),
   (retroId_binding Example.env Example.aliceLobby [] (World.start Example.mem)).2.1
      (by decide),
   (retroId_binding Example.failEnv Example.aliceLobby [1] (World.start ())).2.2.1
      { RetroId := "r1" } (by decide) (by decide),
   ((retroId_binding Example.env Example.aliceLobby [1] (World.start Example.mem)).2.2.2.1
      "menu" (menu Example.env) (by simp [registerHandlers]) (by decide)).2⟩

/-- C9 on the example Store: the empty payload does not decode, and every decoding handler
returns what it was given. -/
theorem decode_failure_noop_witness :
    joinRetro Example.env Example.alice [] (World.start Example.mem)
        = (Example.alice, World.start Example.mem)
    ∧ add Example.env Example.alice [] (World.start Example.mem)
        = (Example.alice, World.start Example.mem)
    ∧ edit Example.env Example.alice [] (World.start Example.mem)
        = (Example.alice, World.start Example.mem)
    ∧ move Example.env Example.alice [] (World.start Example.mem)
        = (Example.alice, World.start Example.mem)
    ∧ stage Example.env Example.alice [] (World.start Example.mem)
        = (Example.alice, World.start Example.mem)
    ∧ reveal Example.env Example.alice [] (World.start Example.mem)
        = (Example.alice, World.start Example.mem)
    ∧ group Example.env Example.alice [] (World.start Example.mem)
        = (Example.alice, World.start Example.mem)
    ∧ vote Example.env Example.alice [] (World.start Example.mem)
        = (Example.alice, World.start Example.mem)
    ∧ unvote Example.env Example.alice [] (World.start Example.mem)
        = (Example.alice, World.start Example.mem)
    ∧ delete Example.env Example.alice [] (World.start Example.mem)
        = (Example.alice, World.start Example.mem)
    ∧ createRetro Example.env Example.alice [] (World.start Example.mem)
        = (Example.alice, World.start Example.mem) :=
  ⟨(decode_failure_noop Example.env Example.alice [] (World.start Example.mem)).1 (by decide),
   (decode_failure_noop Example.env Example.alice [] (World.start Example.mem)).2.1
      (by decide),
   (decode_failure_noop Example.env Example.alice [] (World.start Example.mem)).2.2.1
      (by decide),
   (decode_failure_noop Example.env Example.alice [] (World.start Example.mem)).2.2.2.1
      (by decide),
   (decode_failure_noop Example.env Example.alice [] (World.start Example.mem)).2.2.2.2.1
      (by decide),
   (decode_failure_noop Example.env Example.alice [] (World.start Example.mem)).2.2.2.2.2.1
      (by decide),
   (decode_failure_noop Example.env Example.alice [] (World.start Example.mem)).2.2.2.2.2.2.1
      (by decide),
   (decode_failure_noop Example.env Example.alice []
      (World.start Example.mem)).2.2.2.2.2.2.2.1 (by decide),
   (decode_failure_noop Example.env Example.alice []
      (World.start Example.mem)).2.2.2.2.2.2.2.2.1 (by decide),
   (decode_failure_noop Example.env Example.alice []
      (World.start Example.mem)).2.2.2.2.2.2.2.2.2.1 (by decide),
   (decode_failure_noop Example.env Example.alice []
      (World.start Example.mem)).2.2.2.2.2.2.2.2.2.2 (by decide)⟩

end retro
